import Mathlib

/-!
Shallow embedding of the TeluScript repository (src/transcriber.py,
src/live_asr.py, src/audio_streamer.py, src/features.py).

Conventions of the embedding:
* A numpy array is a flat list of samples in C order together with its shape
  (`NDArray`).  Sample values are modelled by `Int`; the numpy
  `astype(np.float32)` conversion is modelled by an explicit cast function
  `cast : Int → Int` passed as a parameter (the real float32 conversion is
  idempotent on already-converted values, which theorems take as a
  hypothesis where they need it).
* The pretrained faster-whisper model is external to the repository; its
  decode routine `model.transcribe` is modelled as an abstract parameter
  `decode` returning either a list of segments or an error (a raised
  exception).  Only the `text` field of a segment is consumed by the code.
* Python `" ".join(xs)` is `String.intercalate " "`; Python `str.strip()` is
  modelled by `pyStrip` (drop leading and trailing whitespace characters).
* Printing is modelled by returning the list of printed lines.
-/

namespace TeluScript

/-- A numpy ndarray: its shape and its element data in flat C order. -/
structure NDArray (α : Type) where
  shape : List Nat
  data : List α
deriving DecidableEq

/-- `a.flatten()`: a 1-D array with the same elements in C order. -/
def NDArray.flatten {α : Type} (a : NDArray α) : NDArray α :=
  ⟨[a.data.length], a.data⟩

/-- `a.astype(dtype)`: apply the dtype conversion elementwise, keep the shape. -/
def NDArray.astype {α β : Type} (f : α → β) (a : NDArray α) : NDArray β :=
  ⟨a.shape, a.data.map f⟩

/-- `a.copy()`: under value semantics a copy has the same shape and data. -/
def NDArray.copy {α : Type} (a : NDArray α) : NDArray α := a

/-- `np.concatenate(xs, axis=0)` on 1-D arrays: the data lists joined in
order.  In this repository it is only applied to the non-empty list of 1-D
float32 chunks drained from the buffer. -/
def npConcatenate {α : Type} (xs : List (NDArray α)) : NDArray α :=
  ⟨[(xs.map (fun a => a.data.length)).sum], (xs.map (fun a => a.data)).flatten⟩

/-- Python `str.strip()`: remove leading and trailing whitespace. -/
def pyStrip (s : String) : String :=
  String.mk (((s.toList.dropWhile Char.isWhitespace).reverse.dropWhile
    Char.isWhitespace).reverse)

/-- A decoded segment as yielded by the model's decode routine.  The code
reads only the `text` attribute of each segment (transcriber.py line 56). -/
structure Segment where
  text : String
deriving DecidableEq

namespace Transcriber

/-- transcriber.py: `MODEL_SIZE = "small"`. -/
def MODEL_SIZE : String := "small"

/-- An abstract handle to a loaded `WhisperModel` instance. -/
structure WhisperModelHandle where
  id : Nat
deriving DecidableEq

/-- The external decode routine of the loaded model: given the (already
flattened, float32) sample list it either yields a list of segments or
raises.  `model.transcribe` is also passed `language="te"`,
`task="transcribe"` and `beam_size=5`; those fixed arguments select the
behaviour abstracted by `decode` and carry no further structure here. -/
def DecodeRoutine : Type := List Int → Except String (List Segment)

/-- transcriber.py, `transcribe_chunk` (lines 29-58): flatten the input and
cast it to float32, hand it to the model's decode routine, collect the
`text` of every yielded segment in order, join with single spaces and
strip.  An exception from the decode routine propagates. -/
def transcribe_chunk (cast : Int → Int) (decode : DecodeRoutine)
    (audio_chunk : NDArray Int) : Except String String :=
  let audio_data := (audio_chunk.flatten).astype cast
  match decode audio_data.data with
  | Except.error e => Except.error e
  | Except.ok segments =>
      let full_text := segments.map Segment.text
      Except.ok (pyStrip (String.intercalate " " full_text))

/-- Spec side (for C1): "the texts of the segments yielded by the model's
decode routine, in the order yielded, joined by single spaces and with
leading and trailing whitespace stripped". -/
def specJoinedSegments (segments : List Segment) : String :=
  pyStrip (String.intercalate " " (segments.map Segment.text))

/-- Process-level events relevant to the transcriber module: importing the
module (which runs its top-level statements, among them the `WhisperModel`
construction at line 17) and calling `transcribe_chunk`. -/
inductive ProcEvent where
  | importModule
  | transcribeCall (audio : NDArray Int)

/-- State of the process: how many times a `WhisperModel` has been
constructed, the module-level `model` binding (none before the module's
top level ran), and the results of the `transcribe_chunk` calls so far. -/
structure ProcState where
  loads : Nat
  model : Option WhisperModelHandle
  outputs : List (Except String String)

/-- The state of a fresh process: no model constructed, no binding. -/
def initProcState : ProcState := ⟨0, none, []⟩

/-- One process step.  Importing the module constructs the model (the
top-level `model = WhisperModel(MODEL_SIZE, ...)` at transcriber.py line
17, assumed to succeed) and binds it.  A `transcribe_chunk` call uses the
bound model's decode routine and neither constructs a model nor changes
the binding; if the module-level load had failed the name `model` is
unbound and the call raises a `NameError`. -/
def proc_step (cast : Int → Int) (w : WhisperModelHandle)
    (decodeOf : WhisperModelHandle → DecodeRoutine)
    (s : ProcState) : ProcEvent → ProcState
  | ProcEvent.importModule => ⟨s.loads + 1, some w, s.outputs⟩
  | ProcEvent.transcribeCall a =>
      match s.model with
      | none => ⟨s.loads, s.model, s.outputs ++ [Except.error "NameError"]⟩
      | some m =>
          ⟨s.loads, s.model,
            s.outputs ++ [transcribe_chunk cast (decodeOf m) a]⟩

/-- Run a process trace from a state. -/
def proc_run (cast : Int → Int) (w : WhisperModelHandle)
    (decodeOf : WhisperModelHandle → DecodeRoutine)
    (s : ProcState) (evs : List ProcEvent) : ProcState :=
  evs.foldl (proc_step cast w decodeOf) s

end Transcriber

namespace LiveASR

/-- live_asr.py line 13: `SAMPLE_RATE = 16000`. -/
def SAMPLE_RATE : Nat := 16000

/-- live_asr.py line 16: `BLOCKSIZE = int(SAMPLE_RATE * 0.5)`. -/
def BLOCKSIZE : Nat := 8000

/-- live_asr.py line 17: `CHANNELS = 1`. -/
def CHANNELS : Nat := 1

/-- live_asr.py `callback` (lines 24-34): possibly print a status warning,
then append `indata.copy().flatten().astype(np.float32)` to the shared
buffer.  Returns the new buffer and the printed lines.  The status message
text itself comes from the driver and is abstracted to a fixed line. -/
def callback (cast : Int → Int) (audio_buffer : List (NDArray Int))
    (indata : NDArray Int) (status : Bool) :
    List (NDArray Int) × List String :=
  (audio_buffer ++ [((indata.copy).flatten).astype cast],
    if status then ["Audio Stream Status"] else [])

/-- The lines printed by the body of the drain step for a given
`transcribe_chunk` outcome: a `LIVE TEXT` line when the text is truthy
(non-empty), nothing when it is empty, and a `Transcription Error` line
when the call raised. -/
def liveTextLines (r : Except String String) : List String :=
  match r with
  | Except.ok t => if t = "" then [] else ["LIVE TEXT: " ++ t]
  | Except.error e => ["Transcription Error: " ++ e]

/-- One iteration of the `while True` loop of `run_live_transcription`
(live_asr.py lines 53-75): if the buffer is non-empty, concatenate all
chunks, clear the buffer, transcribe the combined audio inside
`try/except`, and print accordingly; otherwise do nothing.  Returns the
buffer after the iteration and the printed lines. -/
def run_live_iteration (cast : Int → Int)
    (decode : Transcriber.DecodeRoutine)
    (audio_buffer : List (NDArray Int)) :
    List (NDArray Int) × List String :=
  if audio_buffer.isEmpty then (audio_buffer, [])
  else
    let audio_data := npConcatenate audio_buffer
    match Transcriber.transcribe_chunk cast decode audio_data with
    | Except.ok transcribed_text =>
        ([], if transcribed_text = "" then []
          else ["LIVE TEXT: " ++ transcribed_text])
    | Except.error e => ([], ["Transcription Error: " ++ e])

/-- Several main-loop iterations of `run_live_transcription`: each batch is
the list of blocks the driver-owned callback thread delivered before that
iteration of the main loop ran (each appended by `callback`, status
assumed clear).  Returns the final buffer and all printed lines in
order. -/
def live_run (cast : Int → Int) (decode : Transcriber.DecodeRoutine)
    (audio_buffer : List (NDArray Int)) :
    List (List (NDArray Int)) → List (NDArray Int) × List String
  | [] => (audio_buffer, [])
  | batch :: rest =>
      let buf1 := audio_buffer ++
        batch.map (fun b => ((b.copy).flatten).astype cast)
      let step := run_live_iteration cast decode buf1
      let next := live_run cast decode step.1 rest
      (next.1, step.2 ++ next.2)

end LiveASR

namespace AudioStreamer

/-- audio_streamer.py line 9: `SAMPLE_RATE = 16000`. -/
def SAMPLE_RATE : Nat := 16000

/-- audio_streamer.py line 13: `BLOCKSIZE = int(SAMPLE_RATE * 0.5)`. -/
def BLOCKSIZE : Nat := 8000

/-- audio_streamer.py `callback` (lines 23-35): possibly print a status
warning, then append `indata.copy()` to the shared buffer, unconditionally
and without flattening.  Returns the new buffer and the printed lines. -/
def callback (audio_buffer : List (NDArray Int)) (indata : NDArray Int)
    (status : Bool) : List (NDArray Int) × List String :=
  (audio_buffer ++ [indata.copy],
    if status then ["Audio Stream Warning"] else [])

/-- The interleaved events of `start_stream` (audio_streamer.py lines
39-59): either the driver thread delivers a block (running `callback`) or
the owning thread runs one turn of its `while True: time.sleep(...)` loop,
which does not touch the buffer. -/
inductive StreamEvent where
  | audioBlock (indata : NDArray Int) (status : Bool)
  | mainSleep

/-- Effect of one `start_stream` event on the shared buffer. -/
def stream_step (audio_buffer : List (NDArray Int)) :
    StreamEvent → List (NDArray Int)
  | StreamEvent.audioBlock indata status =>
      (callback audio_buffer indata status).1
  | StreamEvent.mainSleep => audio_buffer

/-- The buffer after a sequence of `start_stream` events. -/
def stream_run (audio_buffer : List (NDArray Int))
    (evs : List StreamEvent) : List (NDArray Int) :=
  evs.foldl stream_step audio_buffer

/-- Whether an event is a delivered audio block (a callback invocation). -/
def StreamEvent.isAudioBlock : StreamEvent → Bool
  | StreamEvent.audioBlock _ _ => true
  | StreamEvent.mainSleep => false

end AudioStreamer

namespace Features

/-- features.py line 7: `SAMPLE_RATE = 16000`. -/
def SAMPLE_RATE : Nat := 16000

/-- features.py line 9: `N_FFT = 512`. -/
def N_FFT : Nat := 512

/-- features.py line 11: `HOP_LENGTH = 160`. -/
def HOP_LENGTH : Nat := 160

/-- features.py line 13: `N_MELS = 80`. -/
def N_MELS : Nat := 80

/-- A 2-D matrix as produced by librosa: row and column counts and an
entry function. -/
structure Mat (α : Type) where
  rows : Nat
  cols : Nat
  entry : Nat → Nat → α

/-- `m.T`: the numpy transpose of a 2-D matrix. -/
def Mat.transpose {α : Type} (m : Mat α) : Mat α :=
  ⟨m.cols, m.rows, fun i j => m.entry j i⟩

/-- The type of `librosa.feature.melspectrogram`, abstract: arguments are
the flattened signal `y` and the keyword parameters `sr`, `n_fft`,
`hop_length`, `n_mels`; the result is a `(n_mels, frames)` matrix (the
row-count contract is a hypothesis where theorems need it). -/
def MelSpectrogramFn : Type := List Int → Nat → Nat → Nat → Nat → Mat Int

/-- The type of `librosa.power_to_db(S, ref=np.max)`, abstract: a
shape-preserving transformation of the spectrogram (its dB arithmetic is
external to the repository). -/
def PowerToDbFn : Type := Mat Int → Mat Int

/-- features.py `extract_mel_spectrogram` (lines 17-45): flatten the input
chunk, compute the Mel spectrogram with the module's fixed parameters,
convert power to decibels, and return the transpose. -/
def extract_mel_spectrogram (melspectrogram : MelSpectrogramFn)
    (power_to_db : PowerToDbFn) (audio_chunk : NDArray Int) : Mat Int :=
  let flat := audio_chunk.flatten
  let mel_features :=
    melspectrogram flat.data SAMPLE_RATE N_FFT HOP_LENGTH N_MELS
  let mel_db := power_to_db mel_features
  mel_db.transpose

end Features

/-! ### Helper lemmas -/

/-- Stripping a string all of whose characters are whitespace yields the
empty string. -/
theorem pyStrip_of_all_whitespace (s : String)
    (h : ∀ c ∈ s.toList, c.isWhitespace) : pyStrip s = "" := by
  unfold pyStrip
  have h1 : s.toList.dropWhile Char.isWhitespace = [] :=
    List.dropWhile_eq_nil_iff.mpr h
  rw [h1]
  rfl

/-- `transcribe_chunk` reads only the element data of its argument, not the
shape. -/
theorem transcribe_chunk_data_only (cast : Int → Int)
    (decode : Transcriber.DecodeRoutine) (a b : NDArray Int)
    (h : a.data = b.data) :
    Transcriber.transcribe_chunk cast decode a =
      Transcriber.transcribe_chunk cast decode b := by
  unfold Transcriber.transcribe_chunk NDArray.flatten NDArray.astype
  rw [h]

/-- A drain iteration (non-empty buffer) returns the empty buffer together
with the lines determined by transcribing the concatenation of the
buffered chunks. -/
theorem run_live_iteration_drain (cast : Int → Int)
    (decode : Transcriber.DecodeRoutine) (audio_buffer : List (NDArray Int))
    (hne : audio_buffer ≠ []) :
    LiveASR.run_live_iteration cast decode audio_buffer =
      ([], LiveASR.liveTextLines (Transcriber.transcribe_chunk cast decode
        (npConcatenate audio_buffer))) := by
  cases audio_buffer with
  | nil => exact absurd rfl hne
  | cons b bs =>
      cases h : Transcriber.transcribe_chunk cast decode
          (npConcatenate (b :: bs)) with
      | ok t =>
          simp [LiveASR.run_live_iteration, LiveASR.liveTextLines, h]
      | error e =>
          simp [LiveASR.run_live_iteration, LiveASR.liveTextLines, h]

/-- `proc_run` over a block of `transcribe_chunk` calls from the
just-imported state: the load count and model binding are untouched and
the outputs accumulate in order. -/
theorem proc_run_transcribe_calls (cast : Int → Int)
    (w : Transcriber.WhisperModelHandle)
    (decodeOf : Transcriber.WhisperModelHandle → Transcriber.DecodeRoutine)
    (audios : List (NDArray Int)) :
    ∀ outs : List (Except String String),
      Transcriber.proc_run cast w decodeOf ⟨1, some w, outs⟩
        (audios.map Transcriber.ProcEvent.transcribeCall) =
      ⟨1, some w, outs ++ audios.map (fun a =>
        Transcriber.transcribe_chunk cast (decodeOf w) a)⟩ := by
  induction audios with
  | nil => intro outs; simp [Transcriber.proc_run]
  | cons a as ih =>
      intro outs
      have h1 : Transcriber.proc_run cast w decodeOf ⟨1, some w, outs⟩
          ((a :: as).map Transcriber.ProcEvent.transcribeCall) =
        Transcriber.proc_run cast w decodeOf
          ⟨1, some w,
            outs ++ [Transcriber.transcribe_chunk cast (decodeOf w) a]⟩
          (as.map Transcriber.ProcEvent.transcribeCall) := rfl
      rw [h1, ih]
      simp

/-- The buffer length after a run of `start_stream` events is the initial
length plus the number of delivered audio blocks. -/
theorem stream_run_length (evs : List AudioStreamer.StreamEvent) :
    ∀ audio_buffer : List (NDArray Int),
      (AudioStreamer.stream_run audio_buffer evs).length =
        audio_buffer.length +
          evs.countP (fun e => e.isAudioBlock) := by
  induction evs with
  | nil => intro buf; simp [AudioStreamer.stream_run]
  | cons ev evs ih =>
      intro buf
      have h1 : AudioStreamer.stream_run buf (ev :: evs) =
          AudioStreamer.stream_run (AudioStreamer.stream_step buf ev) evs :=
        rfl
      rw [h1, ih]
      cases ev with
      | audioBlock indata status =>
          simp [AudioStreamer.stream_step, AudioStreamer.callback,
            AudioStreamer.StreamEvent.isAudioBlock, List.countP_cons]
          omega
      | mainSleep =>
          simp [AudioStreamer.stream_step,
            AudioStreamer.StreamEvent.isAudioBlock, List.countP_cons]

/-! ### Claim theorems -/

/-- C1: for every audio array input, `transcribe_chunk` returns exactly the
texts of the segments yielded by the model's decode routine, in the order
yielded, joined by single spaces and with leading and trailing whitespace
stripped (`specJoinedSegments`); no segment text is dropped, duplicated,
or reordered. -/
theorem C1_transcribe_chunk_joins_segment_texts (cast : Int → Int)
    (decode : Transcriber.DecodeRoutine) (audio_chunk : NDArray Int)
    (segments : List Segment)
    (hdec : decode (((audio_chunk.flatten).astype cast).data) =
      Except.ok segments) :
    Transcriber.transcribe_chunk cast decode audio_chunk =
      Except.ok (Transcriber.specJoinedSegments segments) := by
  simp only [Transcriber.transcribe_chunk, Transcriber.specJoinedSegments]
  rw [hdec]

/-- Witness for C1: two segments with ragged inner whitespace are joined in
order by a single space and the ends are stripped. -/
theorem C1_witness :
    (fun (_ : List Int) =>
        (Except.ok [⟨" నమస్కారం"⟩, ⟨"అండి "⟩] :
          Except String (List Segment)))
        (((NDArray.mk [2] [1, 2]).flatten.astype (fun v => v)).data) =
      Except.ok [Segment.mk " నమస్కారం", Segment.mk "అండి "] ∧
    Transcriber.transcribe_chunk (fun v => v)
        (fun _ => Except.ok [⟨" నమస్కారం"⟩, ⟨"అండి "⟩])
        (NDArray.mk [2] [1, 2]) =
      Except.ok (Transcriber.specJoinedSegments
        [Segment.mk " నమస్కారం", Segment.mk "అండి "]) :=
  ⟨rfl, C1_transcribe_chunk_joins_segment_texts (fun v => v)
    (fun _ => Except.ok [⟨" నమస్కారం"⟩, ⟨"అండి "⟩])
    (NDArray.mk [2] [1, 2])
    [Segment.mk " నమస్కారం", Segment.mk "అండి "] rfl⟩

/-- C9: if the decode routine yields no segments, or only segments whose
joined text is entirely whitespace, `transcribe_chunk` returns the empty
string, and the drain step of `run_live_transcription` prints nothing for
that chunk (in particular no `LIVE TEXT` line, since the empty string is
falsy). -/
theorem C9_whitespace_transcription_prints_nothing (cast : Int → Int)
    (decode : Transcriber.DecodeRoutine)
    (audio_buffer : List (NDArray Int)) (segments : List Segment)
    (hne : audio_buffer ≠ [])
    (hdec : decode ((((npConcatenate audio_buffer).flatten).astype
        cast).data) = Except.ok segments)
    (hws : ∀ c ∈ (String.intercalate " "
        (segments.map Segment.text)).toList, c.isWhitespace) :
    Transcriber.transcribe_chunk cast decode (npConcatenate audio_buffer) =
      Except.ok "" ∧
    (LiveASR.run_live_iteration cast decode audio_buffer).2 = [] := by
  have htr : Transcriber.transcribe_chunk cast decode
      (npConcatenate audio_buffer) = Except.ok "" := by
    simp only [Transcriber.transcribe_chunk]
    rw [hdec]
    simp [pyStrip_of_all_whitespace _ hws]
  refine ⟨htr, ?_⟩
  simp only [LiveASR.run_live_iteration]
  rw [htr]
  simp [hne]

/-- Witness for C9: one segment of pure whitespace over a one-chunk buffer
yields the empty transcription and no printed line. -/
theorem C9_witness :
    ([NDArray.mk [2] [5, 6]] : List (NDArray Int)) ≠ [] ∧
    (fun (_ : List Int) =>
        (Except.ok [Segment.mk "  "] : Except String (List Segment)))
        ((((npConcatenate [NDArray.mk [2] [5, 6]]).flatten).astype
          (fun v => v)).data) = Except.ok [Segment.mk "  "] ∧
    (∀ c ∈ (String.intercalate " "
        ([Segment.mk "  "].map Segment.text)).toList, c.isWhitespace) ∧
    (Transcriber.transcribe_chunk (fun v => v)
        (fun _ => Except.ok [Segment.mk "  "])
        (npConcatenate [NDArray.mk [2] [5, 6]]) = Except.ok "" ∧
      (LiveASR.run_live_iteration (fun v => v)
        (fun _ => Except.ok [Segment.mk "  "])
        [NDArray.mk [2] [5, 6]]).2 = []) :=
  ⟨by decide, rfl, by decide,
    C9_whitespace_transcription_prints_nothing (fun v => v)
      (fun _ => Except.ok [Segment.mk "  "])
      [NDArray.mk [2] [5, 6]] [Segment.mk "  "]
      (by decide) rfl (by decide)⟩

/-- C10: `transcribe_chunk` is insensitive to the shape and dtype of its
input: provided the float32 conversion is idempotent (as numpy's is),
transcribing an array and transcribing its flattened float32 view give
the same result, because the input is flattened and cast before the model
is invoked. -/
theorem C10_transcribe_chunk_shape_dtype_insensitive (cast : Int → Int)
    (decode : Transcriber.DecodeRoutine) (audio_chunk : NDArray Int)
    (hcast : ∀ v, cast (cast v) = cast v) :
    Transcriber.transcribe_chunk cast decode audio_chunk =
      Transcriber.transcribe_chunk cast decode
        ((audio_chunk.flatten).astype cast) := by
  simp only [Transcriber.transcribe_chunk, NDArray.flatten, NDArray.astype,
    List.map_map]
  have hmap : audio_chunk.data.map (cast ∘ cast) =
      audio_chunk.data.map cast :=
    List.map_congr_left (fun a _ => hcast a)
  rw [hmap]

/-- Witness for C10: a (3, 1)-shaped array and its flattened float32 view
transcribe identically under an idempotent cast. -/
theorem C10_witness :
    (∀ v : Int, (fun x => x % 7) ((fun x => x % 7) v) =
      (fun x => x % 7) v) ∧
    Transcriber.transcribe_chunk (fun x => x % 7)
        (fun d => Except.ok [Segment.mk (toString d.length)])
        (NDArray.mk [3, 1] [1, 2, 3]) =
      Transcriber.transcribe_chunk (fun x => x % 7)
        (fun d => Except.ok [Segment.mk (toString d.length)])
        (((NDArray.mk [3, 1] [1, 2, 3]).flatten).astype
          (fun x => x % 7)) :=
  ⟨fun v => by show v % 7 % 7 = v % 7; omega,
    C10_transcribe_chunk_shape_dtype_insensitive (fun x => x % 7)
      (fun d => Except.ok [Segment.mk (toString d.length)])
      (NDArray.mk [3, 1] [1, 2, 3])
      (fun v => by show v % 7 % 7 = v % 7; omega)⟩

/-- C2: in every main-loop iteration with a non-empty buffer, all buffered
chunks are concatenated in FIFO order into one array, the buffer is
emptied, and the concatenated audio is passed to `transcribe_chunk`; after
the drain the buffer is empty. -/
theorem C2_drain_concatenates_fifo_and_empties_buffer (cast : Int → Int)
    (decode : Transcriber.DecodeRoutine)
    (audio_buffer : List (NDArray Int)) (hne : audio_buffer ≠ []) :
    LiveASR.run_live_iteration cast decode audio_buffer =
      ([], LiveASR.liveTextLines (Transcriber.transcribe_chunk cast decode
        (npConcatenate audio_buffer))) ∧
    (npConcatenate audio_buffer).data =
      (audio_buffer.map NDArray.data).flatten :=
  ⟨run_live_iteration_drain cast decode audio_buffer hne, rfl⟩

/-- Witness for C2: a two-chunk buffer is drained in FIFO order. -/
theorem C2_witness :
    ([NDArray.mk [1] [3], NDArray.mk [1] [4]] : List (NDArray Int)) ≠ [] ∧
    (LiveASR.run_live_iteration (fun v => v)
        (fun d => Except.ok [Segment.mk (toString d)])
        [NDArray.mk [1] [3], NDArray.mk [1] [4]] =
      ([], LiveASR.liveTextLines (Transcriber.transcribe_chunk (fun v => v)
        (fun d => Except.ok [Segment.mk (toString d)])
        (npConcatenate [NDArray.mk [1] [3], NDArray.mk [1] [4]]))) ∧
    (npConcatenate ([NDArray.mk [1] [3], NDArray.mk [1] [4]] :
        List (NDArray Int))).data =
      (([NDArray.mk [1] [3], NDArray.mk [1] [4]] :
        List (NDArray Int)).map NDArray.data).flatten) :=
  ⟨by decide,
    C2_drain_concatenates_fifo_and_empties_buffer (fun v => v)
      (fun d => Except.ok [Segment.mk (toString d)])
      [NDArray.mk [1] [3], NDArray.mk [1] [4]] (by decide)⟩

/-- C3: each capture-callback invocation appends exactly one element to the
shared buffer — a copy of the incoming block, flattened to 1-D float32 in
the live pipeline — modifies no existing element, and the new buffer is
the old buffer with that element at the end. -/
theorem C3_callback_appends_exactly_one_copied_block (cast : Int → Int)
    (audio_buffer : List (NDArray Int)) (indata : NDArray Int)
    (status : Bool) :
    (LiveASR.callback cast audio_buffer indata status).1 =
      audio_buffer ++ [((indata.copy).flatten).astype cast] ∧
    (LiveASR.callback cast audio_buffer indata status).1.length =
      audio_buffer.length + 1 ∧
    (LiveASR.callback cast audio_buffer indata status).1.take
      audio_buffer.length = audio_buffer ∧
    (AudioStreamer.callback audio_buffer indata status).1 =
      audio_buffer ++ [indata.copy] ∧
    (AudioStreamer.callback audio_buffer indata status).1.take
      audio_buffer.length = audio_buffer := by
  refine ⟨rfl, by simp [LiveASR.callback], ?_, rfl, ?_⟩ <;>
    simp [LiveASR.callback, AudioStreamer.callback, List.take_left]

/-- C4: when `transcribe_chunk` raises during a drain iteration, the loop
prints the error line and continues with the following iterations, the
stream still running; the drained audio is not restored, so the next
iteration starts from an empty buffer. -/
theorem C4_transcription_error_printed_loop_continues (cast : Int → Int)
    (decode : Transcriber.DecodeRoutine) (audio_buffer : List (NDArray Int))
    (batch : List (NDArray Int)) (rest : List (List (NDArray Int)))
    (e : String)
    (hne : audio_buffer ++ batch.map (fun b =>
      ((b.copy).flatten).astype cast) ≠ [])
    (hdec : decode ((((npConcatenate (audio_buffer ++ batch.map (fun b =>
        ((b.copy).flatten).astype cast))).flatten).astype cast).data) =
      Except.error e) :
    LiveASR.live_run cast decode audio_buffer (batch :: rest) =
      ((LiveASR.live_run cast decode [] rest).1,
        ("Transcription Error: " ++ e) ::
          (LiveASR.live_run cast decode [] rest).2) := by
  have htr : Transcriber.transcribe_chunk cast decode
      (npConcatenate (audio_buffer ++ batch.map (fun b =>
        ((b.copy).flatten).astype cast))) = Except.error e := by
    simp only [Transcriber.transcribe_chunk]
    rw [hdec]
  have hstep := run_live_iteration_drain cast decode
    (audio_buffer ++ batch.map (fun b => ((b.copy).flatten).astype cast))
    hne
  rw [htr] at hstep
  simp only [LiveASR.live_run]
  rw [hstep]
  simp [LiveASR.liveTextLines]

/-- Witness for C4: a failing decode on the first batch prints the error
and the second batch is still processed from an empty buffer. -/
theorem C4_witness :
    (([] : List (NDArray Int)) ++ ([NDArray.mk [1] [9]].map (fun b =>
      ((b.copy).flatten).astype (fun v => v))) ≠ []) ∧
    ((fun (_ : List Int) =>
        (Except.error "boom" : Except String (List Segment)))
      ((((npConcatenate (([] : List (NDArray Int)) ++
        ([NDArray.mk [1] [9]].map (fun b =>
          ((b.copy).flatten).astype (fun v => v))))).flatten).astype
            (fun v => v)).data) = Except.error "boom") ∧
    LiveASR.live_run (fun v => v) (fun _ => Except.error "boom")
        [] [[NDArray.mk [1] [9]], [NDArray.mk [1] [8]]] =
      ((LiveASR.live_run (fun v => v) (fun _ => Except.error "boom")
          [] [[NDArray.mk [1] [8]]]).1,
        ("Transcription Error: " ++ "boom") ::
          (LiveASR.live_run (fun v => v) (fun _ => Except.error "boom")
            [] [[NDArray.mk [1] [8]]]).2) :=
  ⟨by decide, rfl,
    C4_transcription_error_printed_loop_continues (fun v => v)
      (fun _ => Except.error "boom") [] [NDArray.mk [1] [9]]
      [[NDArray.mk [1] [8]]] "boom" (by decide) rfl⟩

/-- C5: starting from a fresh process, importing the transcriber module and
then making any number of `transcribe_chunk` calls constructs the Whisper
model exactly once, leaves the import-time model bound throughout, and
each call's output is computed with that same model's decode routine;
moreover a `transcribe_chunk` call never changes the load count or the
model binding. -/
theorem C5_model_loaded_once_and_reused (cast : Int → Int)
    (w : Transcriber.WhisperModelHandle)
    (decodeOf : Transcriber.WhisperModelHandle → Transcriber.DecodeRoutine)
    (audios : List (NDArray Int)) :
    (Transcriber.proc_run cast w decodeOf Transcriber.initProcState
        (Transcriber.ProcEvent.importModule ::
          audios.map Transcriber.ProcEvent.transcribeCall)).loads = 1 ∧
    (Transcriber.proc_run cast w decodeOf Transcriber.initProcState
        (Transcriber.ProcEvent.importModule ::
          audios.map Transcriber.ProcEvent.transcribeCall)).model =
      some w ∧
    (Transcriber.proc_run cast w decodeOf Transcriber.initProcState
        (Transcriber.ProcEvent.importModule ::
          audios.map Transcriber.ProcEvent.transcribeCall)).outputs =
      audios.map (fun a =>
        Transcriber.transcribe_chunk cast (decodeOf w) a) ∧
    ∀ (s : Transcriber.ProcState) (a : NDArray Int),
      (Transcriber.proc_step cast w decodeOf s
        (Transcriber.ProcEvent.transcribeCall a)).loads = s.loads ∧
      (Transcriber.proc_step cast w decodeOf s
        (Transcriber.ProcEvent.transcribeCall a)).model = s.model := by
  have h0 : Transcriber.proc_run cast w decodeOf Transcriber.initProcState
      (Transcriber.ProcEvent.importModule ::
        audios.map Transcriber.ProcEvent.transcribeCall) =
    Transcriber.proc_run cast w decodeOf ⟨1, some w, []⟩
      (audios.map Transcriber.ProcEvent.transcribeCall) := rfl
  rw [h0, proc_run_transcribe_calls cast w decodeOf audios []]
  refine ⟨rfl, rfl, by simp, ?_⟩
  intro s a
  cases hm : s.model <;> simp [Transcriber.proc_step, hm]

/-- C6: the streamer callback appends regardless of the current buffer size
(no backpressure), `start_stream` never drains, so over any event sequence
the buffer grows by exactly one per delivered block and its length is
monotonically non-decreasing. -/
theorem C6_unconditional_append_monotone_growth
    (audio_buffer : List (NDArray Int)) (indata : NDArray Int)
    (status : Bool) (evs : List AudioStreamer.StreamEvent) :
    (AudioStreamer.callback audio_buffer indata status).1.length =
      audio_buffer.length + 1 ∧
    (AudioStreamer.stream_run audio_buffer evs).length =
      audio_buffer.length + evs.countP (fun e => e.isAudioBlock) ∧
    ∀ evs2, (AudioStreamer.stream_run audio_buffer evs).length ≤
      (AudioStreamer.stream_run audio_buffer (evs ++ evs2)).length := by
  refine ⟨by simp [AudioStreamer.callback],
    stream_run_length evs audio_buffer, ?_⟩
  intro evs2
  have hap : AudioStreamer.stream_run audio_buffer (evs ++ evs2) =
      AudioStreamer.stream_run (AudioStreamer.stream_run audio_buffer evs)
        evs2 := by
    simp [AudioStreamer.stream_run, List.foldl_append]
  rw [hap, stream_run_length evs2]
  omega

/-- C7: `extract_mel_spectrogram` returns the transpose of the
decibel-scaled Mel spectrogram of the flattened input computed with the
fixed parameters sr=16000, n_fft=512, hop_length=160, n_mels=80; given the
library contracts that `melspectrogram` returns an `(n_mels, frames)`
matrix and `power_to_db` preserves dimensions, the result's second
dimension is N_MELS = 80. -/
theorem C7_mel_features_are_transposed_with_eighty_mels
    (melspectrogram : Features.MelSpectrogramFn)
    (power_to_db : Features.PowerToDbFn) (audio_chunk : NDArray Int)
    (hrows : ∀ y sr nf hp nm,
      (melspectrogram y sr nf hp nm).rows = nm)
    (hdims : ∀ m, (power_to_db m).rows = m.rows ∧
      (power_to_db m).cols = m.cols) :
    Features.extract_mel_spectrogram melspectrogram power_to_db
        audio_chunk =
      (power_to_db (melspectrogram (audio_chunk.flatten).data
        16000 512 160 80)).transpose ∧
    (Features.extract_mel_spectrogram melspectrogram power_to_db
      audio_chunk).cols = Features.N_MELS ∧
    Features.N_MELS = 80 := by
  refine ⟨rfl, ?_, rfl⟩
  have h1 : (Features.extract_mel_spectrogram melspectrogram power_to_db
      audio_chunk).cols =
    (power_to_db (melspectrogram (audio_chunk.flatten).data
      Features.SAMPLE_RATE Features.N_FFT Features.HOP_LENGTH
      Features.N_MELS)).rows := rfl
  rw [h1, (hdims _).1, hrows]

/-- Witness for C7: a concrete melspectrogram of the contracted shape and
an identity power-to-db on a 3-sample chunk give a result whose second
dimension is 80. -/
theorem C7_witness :
    (∀ (y : List Int) (sr nf hp nm : Nat),
      ((fun (yy : List Int) (_ _ _ : Nat) (nmels : Nat) =>
        (Features.Mat.mk nmels yy.length (fun _ _ => (0 : Int))))
          y sr nf hp nm).rows = nm) ∧
    (∀ m : Features.Mat Int,
      ((fun mm : Features.Mat Int => mm) m).rows = m.rows ∧
      ((fun mm : Features.Mat Int => mm) m).cols = m.cols) ∧
    (Features.extract_mel_spectrogram
      (fun (yy : List Int) (_ _ _ : Nat) (nmels : Nat) =>
        (Features.Mat.mk nmels yy.length (fun _ _ => (0 : Int))))
      (fun mm : Features.Mat Int => mm)
      (NDArray.mk [3] [1, 2, 3])).cols = Features.N_MELS :=
  ⟨fun _ _ _ _ _ => rfl, fun _ => ⟨rfl, rfl⟩,
    (C7_mel_features_are_transposed_with_eighty_mels
      (fun (yy : List Int) (_ _ _ : Nat) (nmels : Nat) =>
        (Features.Mat.mk nmels yy.length (fun _ _ => (0 : Int))))
      (fun mm : Features.Mat Int => mm)
      (NDArray.mk [3] [1, 2, 3])
      (fun _ _ _ _ _ => rfl) (fun _ => ⟨rfl, rfl⟩)).2.1⟩

/-- C8: the live pipeline never touches the feature extractor: a drain
iteration is exactly the `transcribe_chunk` of the raw concatenated
samples, and two buffers holding the same raw samples produce identical
iteration results, so the live output depends only on the raw audio. -/
theorem C8_live_pipeline_uses_only_raw_audio (cast : Int → Int)
    (decode : Transcriber.DecodeRoutine)
    (b1 b2 : List (NDArray Int)) (h1 : b1 ≠ []) (h2 : b2 ≠ [])
    (hdata : (npConcatenate b1).data = (npConcatenate b2).data) :
    LiveASR.run_live_iteration cast decode b1 =
      LiveASR.run_live_iteration cast decode b2 ∧
    LiveASR.run_live_iteration cast decode b1 =
      ([], LiveASR.liveTextLines (Transcriber.transcribe_chunk cast decode
        (npConcatenate b1))) := by
  refine ⟨?_, run_live_iteration_drain cast decode b1 h1⟩
  rw [run_live_iteration_drain cast decode b1 h1,
    run_live_iteration_drain cast decode b2 h2,
    transcribe_chunk_data_only cast decode _ _ hdata]

/-- Witness for C8: a single two-sample chunk and two one-sample chunks
carrying the same raw samples give identical drain results. -/
theorem C8_witness :
    ([NDArray.mk [2] [1, 2]] : List (NDArray Int)) ≠ [] ∧
    ([NDArray.mk [1] [1], NDArray.mk [1] [2]] : List (NDArray Int)) ≠ [] ∧
    (npConcatenate [NDArray.mk [2] [1, 2]]).data =
      (npConcatenate [NDArray.mk [1] [1], NDArray.mk [1] [2]]).data ∧
    LiveASR.run_live_iteration (fun v => v)
        (fun d => Except.ok [Segment.mk (toString d)])
        [NDArray.mk [2] [1, 2]] =
      LiveASR.run_live_iteration (fun v => v)
        (fun d => Except.ok [Segment.mk (toString d)])
        [NDArray.mk [1] [1], NDArray.mk [1] [2]] :=
  ⟨by decide, by decide, by decide,
    (C8_live_pipeline_uses_only_raw_audio (fun v => v)
      (fun d => Except.ok [Segment.mk (toString d)])
      [NDArray.mk [2] [1, 2]]
      [NDArray.mk [1] [1], NDArray.mk [1] [2]]
      (by decide) (by decide) (by decide)).1⟩

end TeluScript
